import Mathlib

/-!
Verification of `notify.py` (experiment-notifier): a Slack notification
decorator.  The Python source is shallowly embedded below; each definition
carries a comment pointing at the source lines it translates.  Timestamps and
durations are modelled at microsecond granularity (the resolution of Python
`timedelta`), exceptions as a record of kind name and message, and the Slack
client boundary by a function returning either a response or a `SlackApiError`
(the error type the client declares and the only one the source catches).
-/

/-- An exception captured from the wrapped function: its class name
(`e.__class__.__name__`) and its message (`str(e)`). -/
structure ErrorInfo where
  kindName : String
  message : String
  deriving DecidableEq, Repr

/-- The error the Slack client raises on a failed send (`SlackApiError`),
carried as its rendered message. -/
structure SlackApiError where
  message : String
  deriving DecidableEq, Repr

/-- Outcome of one `client.chat_postMessage` call: a response (modelled as its
string rendering, which the source only logs) or a `SlackApiError`. -/
inductive DeliveryOutcome where
  | ok (response : String)
  | apiError (e : SlackApiError)
  deriving DecidableEq, Repr

/-- A logger event: `logger.debug` or `logger.error` with the message text. -/
inductive LogEvent where
  | debug (msg : String)
  | error (msg : String)
  deriving DecidableEq, Repr

/-- One block of the Slack message payload: a mrkdwn section
(`{"type": "section", "text": {"type": "mrkdwn", "text": ...}}`), a divider,
or a context block (the footer). -/
inductive Block where
  | mrkdwnSection (text : String)
  | divider
  | context (text : String)
  deriving DecidableEq, Repr

/-- One attachment of the Slack message (the source always builds exactly
one): fallback text, color, and the ordered block list. -/
structure Attachment where
  fallback : String
  color : String
  blocks : List Block
  deriving DecidableEq, Repr

/-- The payload handed to `client.chat_postMessage`: channel, summary text and
attachments (source lines 182-207). -/
structure SlackMessage where
  channel : String
  text : String
  attachments : List Attachment
  deriving DecidableEq, Repr

/-- Ambient process facts read by `_create_message`:
`os.path.basename(sys.executable)`, `sys.argv`, and `os.uname()[1]`. -/
structure SysEnv where
  executableBase : String
  argv : List String
  hostname : String
  deriving DecidableEq, Repr

/-- The mutable state of a `notify` instance (source lines 52-80): channel,
normalized mention list, token, last captured error, start and end timestamps
(microseconds), and the name of the most recently decorated function. -/
structure NotifyState where
  channel : String
  mentions : List String
  token : String
  error : Option ErrorInfo
  t_start : Option Nat
  t_end : Option Nat
  func_name : Option String
  deriving DecidableEq, Repr

/-- The `mentions` argument of `notify.__init__`: `None`, a single string, or
an iterable of strings (source lines 55-60). -/
inductive MentionsArg where
  | omitted
  | str (s : String)
  | list (l : List String)
  deriving DecidableEq, Repr

/-- Errors `notify.__init__` can raise: the `ValueError` for an invalid
mention, which names the offending value (source lines 63-67), or the
`KeyError` for a missing environment variable (source line 71). -/
inductive InitError where
  | invalidMention (offending : String)
  | keyError (name : String)
  deriving DecidableEq, Repr

/-- Source lines 19-22: `re.match(r'channel|here|U[0-9A-Z]+', s) is not None`.
`re.match` anchors only at the start of the string, so this is a prefix test:
the string starts with `channel`, starts with `here`, or starts with `U`
followed by one character from `[0-9A-Z]`. -/
def _is_valid_mention (s : String) : Bool :=
  "channel".data.isPrefixOf s.data || "here".data.isPrefixOf s.data ||
    (match s.data with
     | 'U' :: c :: _ => c.isDigit || ('A' ≤ c && c ≤ 'Z')
     | _ => false)

/-- Source lines 55-60: mention normalization in `notify.__init__`. -/
def normalizeMentions : MentionsArg → List String
  | .omitted => []
  | .str s => [s]
  | .list l => l

/-- Source lines 48-80: `notify.__init__`.  `envToken` models
`os.environ.get('SLACK_API_TOKEN')`; when `token is None` and the variable is
absent, Python raises `KeyError`.  The mention loop raises `ValueError` at the
first invalid mention, before token resolution.  The channel is stored without
any validation. -/
def notifyInit (channel : String) (mentions : MentionsArg) (token : Option String)
    (envToken : Option String) : Except InitError NotifyState :=
  let ms := normalizeMentions mentions
  match ms.find? (fun m => !_is_valid_mention m) with
  | some bad => .error (.invalidMention bad)
  | none =>
    match token with
    | some t => .ok ⟨channel, ms, t, none, none, none, none⟩
    | none =>
      match envToken with
      | some t => .ok ⟨channel, ms, t, none, none, none, none⟩
      | none => .error (.keyError "SLACK_API_TOKEN")

/-- Source lines 82-83: `notify.__call__` records `f.__name__` on the shared
instance before returning the wrapper closure. -/
def notifyCall (st : NotifyState) (fname : String) : NotifyState :=
  { st with func_name := some fname }

/-- Source line 125-126: a mention equal to `channel` or `here` renders as a
broadcast reference `<!s>`, anything else as a direct reference `<@s>`. -/
def renderMention (s : String) : String :=
  if s == "channel" || s == "here" then "<!" ++ s ++ ">" else "<@" ++ s ++ ">"

/-- Source line 125-126: `' '.join(...)` over the rendered mentions. -/
def mentionText (ms : List String) : String :=
  String.intercalate " " (ms.map renderMention)

/-- Source lines 127-128: the bold status phrase. -/
def statusText (e : Option ErrorInfo) : String :=
  if e.isNone then "Execution succeeded!" else "Execution failed!"

/-- Source line 129: `self.func_name` interpolated into the f-string;
Python renders `None` as the text `None`. -/
def funcNameText : Option String → String
  | some n => n
  | none => "None"

/-- Left-pad the decimal rendering of `n` with zeros to width `w`. -/
def padZeros (w : Nat) (n : Nat) : String :=
  let s := toString n
  String.mk (List.replicate (w - s.length) '0') ++ s

/-- Python `str(timedelta)` on a nonnegative duration of `micros`
microseconds: `[D day(s), ]H:MM:SS`, with `.ffffff` appended only when the
microsecond remainder is nonzero. -/
def timedeltaStr (micros : Nat) : String :=
  let days := micros / 86400000000
  let rem := micros % 86400000000
  let secs := rem / 1000000
  let us := rem % 1000000
  let hh := secs / 3600
  let mm := (secs % 3600) / 60
  let ss := secs % 60
  let base := toString hh ++ ":" ++ padZeros 2 mm ++ ":" ++ padZeros 2 ss
  let base :=
    if days ≠ 0 then
      toString days ++ (if days = 1 then " day, " else " days, ") ++ base
    else base
  if us ≠ 0 then base ++ "." ++ padZeros 6 us else base

/-- Source line 133: `' '.join([os.path.basename(sys.executable)] + sys.argv)`
inside the Command section label and code fence (line 138). -/
def commandText (sys : SysEnv) : String :=
  "*Command*```" ++ String.intercalate " " (sys.executableBase :: sys.argv) ++ "```"

/-- Source line 143: `self.t_end - self.t_start`, in microseconds.  The
wrapper always sets both timestamps before `_send` runs; `getD 0` only fills
the slots an actual call always fills. -/
def elapsedMicros (st : NotifyState) : Nat :=
  st.t_end.getD 0 - st.t_start.getD 0

/-- Source lines 143-148: the Time elapsed section text,
`f"*Time elapsed*\n{str(dt)[:-3]}"`. -/
def elapsedText (st : NotifyState) : String :=
  "*Time elapsed*\n" ++ (timedeltaStr (elapsedMicros st)).dropRight 3

/-- Source lines 153-163: the Error message section text,
`f"*Error message*\n```{kind}: {message}```"`. -/
def errorText (e : ErrorInfo) : String :=
  "*Error message*\n```" ++ e.kindName ++ ": " ++ e.message ++ "```"

/-- Source lines 171-179: the footer context text. -/
def footerText (sys : SysEnv) : String :=
  "Sent from *notify.py* at " ++ sys.hostname

/-- Source lines 121-209: `notify._create_message`.  Builds the summary text
from the mention prefix, status phrase and function name, then the attachment
with blocks Command, Time elapsed, (Error on failure), Divider, Footer. -/
def createMessage (sys : SysEnv) (st : NotifyState) : SlackMessage :=
  let text := mentionText st.mentions ++ " *" ++ statusText st.error ++
    "* (at function `" ++ funcNameText st.func_name ++ "`)"
  let command := Block.mrkdwnSection (commandText sys)
  let timeElapsed := Block.mrkdwnSection (elapsedText st)
  let footer := Block.context (footerText sys)
  match st.error with
  | none =>
    ⟨st.channel, text,
      [⟨"Details about the execution results.", "#36a64f",
        [command, timeElapsed, Block.divider, footer]⟩]⟩
  | some e =>
    ⟨st.channel, text,
      [⟨"Details about the execution results.", "#cf0301",
        [command, timeElapsed, Block.mrkdwnSection (errorText e),
         Block.divider, footer]⟩]⟩

/-- Result of `notify._send`: the returned status, the list of
`chat_postMessage` calls made (each element one delivery attempt with its
payload), and the log events emitted. -/
structure SendResult where
  status : Nat
  attempts : List SlackMessage
  logs : List LogEvent
  deriving DecidableEq, Repr

/-- Source lines 104-119: `notify._send`.  Builds the message, logs a debug
line, calls `chat_postMessage` once; a `SlackApiError` is logged at error
severity and turned into status 1, success logs the response and returns 0.
`deliver` models the Slack client boundary. -/
def notifySend (sys : SysEnv) (st : NotifyState)
    (deliver : SlackMessage → DeliveryOutcome) : SendResult :=
  match deliver (createMessage sys st) with
  | .ok r =>
    ⟨0, [createMessage sys st],
      [.debug "Sending a notification to Slack.", .debug r]⟩
  | .apiError e =>
    ⟨1, [createMessage sys st],
      [.debug "Sending a notification to Slack.",
       .error ("Could not send a notification: " ++ e.message)]⟩

/-- Result of one call to the wrapper: the call outcome (return value or
re-raised exception), the instance state after the call, and the result of
the `_send` the call triggered. -/
structure WrapperResult (β : Type) where
  outcome : Except ErrorInfo β
  st : NotifyState
  sent : SendResult

/-- Source lines 86-102: the `wrapper` closure produced by `notify.__call__`.
Records `t_start`, runs `f`; on an exception it records `t_end`, stores the
error, triggers `_send` and re-raises the same exception; on normal return it
records `t_end` (without touching `self.error`), triggers `_send` and returns
the result unchanged.  `t1`, `t2` model the two `time.time()` readings. -/
def wrapper {α β : Type} (sys : SysEnv) (st : NotifyState)
    (f : α → Except ErrorInfo β) (arg : α) (t1 t2 : Nat)
    (deliver : SlackMessage → DeliveryOutcome) : WrapperResult β :=
  let st1 := { st with t_start := some t1 }
  match f arg with
  | .error e =>
    let st2 := { st1 with t_end := some t2, error := some e }
    ⟨.error e, st2, notifySend sys st2 deliver⟩
  | .ok v =>
    let st2 := { st1 with t_end := some t2 }
    ⟨.ok v, st2, notifySend sys st2 deliver⟩

/-- Concrete process environment used by counterexamples and witnesses. -/
def sys0 : SysEnv := ⟨"python", ["script.py"], "myhost"⟩

/-- A delivery client that always succeeds, used by concrete evaluations. -/
def deliverOk : SlackMessage → DeliveryOutcome := fun _ => .ok "ok"

/-- A delivery client that always fails with a `SlackApiError`. -/
def deliverFail : SlackMessage → DeliveryOutcome := fun _ => .apiError ⟨"boom"⟩

/-- Helper: `_send` makes exactly one `chat_postMessage` call, with the
message built from the state it was given, whatever the client does. -/
theorem notifySend_attempts (sys : SysEnv) (st : NotifyState)
    (deliver : SlackMessage → DeliveryOutcome) :
    (notifySend sys st deliver).attempts = [createMessage sys st] := by
  unfold notifySend
  split <;> rfl

/-- C1: transparency of decoration.  For every notifier state, wrapped
function `f`, argument, pair of clock readings and delivery client, the
wrapper's outcome is exactly `f arg`: the same return value when `f` returns
normally, and an exception of the same kind and message when `f` raises. -/
theorem c1_transparency {α β : Type} (sys : SysEnv) (st : NotifyState)
    (f : α → Except ErrorInfo β) (arg : α) (t1 t2 : Nat)
    (deliver : SlackMessage → DeliveryOutcome) :
    (wrapper sys st f arg t1 t2 deliver).outcome = f arg := by
  unfold wrapper
  cases f arg <;> rfl

/-- C3: exactly-once delivery.  Every call through the wrapper makes exactly
one `chat_postMessage` call, whether the wrapped function returns normally or
raises, and whatever the delivery client does. -/
theorem c3_exactly_once {α β : Type} (sys : SysEnv) (st : NotifyState)
    (f : α → Except ErrorInfo β) (arg : α) (t1 t2 : Nat)
    (deliver : SlackMessage → DeliveryOutcome) :
    (wrapper sys st f arg t1 t2 deliver).sent.attempts.length = 1 := by
  unfold wrapper
  cases f arg <;> simp [notifySend_attempts]

/-- C4: message structure.  When the stored error is `none` the message has
exactly the blocks Command, Time elapsed, Divider, Footer in that order (and
hence no error section); when it is `some e` it has exactly Command, Time
elapsed, Error, Divider, Footer, the error section carrying the captured kind
name and message. -/
theorem c4_message_structure (sys : SysEnv) (st : NotifyState) :
    (match st.error with
     | none =>
       (createMessage sys st).attachments =
         [⟨"Details about the execution results.", "#36a64f",
           [Block.mrkdwnSection (commandText sys),
            Block.mrkdwnSection (elapsedText st),
            Block.divider, Block.context (footerText sys)]⟩]
     | some e =>
       (createMessage sys st).attachments =
         [⟨"Details about the execution results.", "#cf0301",
           [Block.mrkdwnSection (commandText sys),
            Block.mrkdwnSection (elapsedText st),
            Block.mrkdwnSection (errorText e),
            Block.divider, Block.context (footerText sys)]⟩]) := by
  cases he : st.error <;> simp [createMessage, he]

/-- Concrete notifier state used by witnesses: a successfully constructed
instance decorating a function named `main`. -/
def stW : NotifyState := ⟨"#general", ["channel"], "tok", none, none, none, some "main"⟩

/-- C5: delivery-failure isolation.  If the `chat_postMessage` call made
during a wrapped invocation fails with a `SlackApiError`, the failure is
logged at error severity and turned into internal status 1, while the
wrapper's outcome is still exactly `f arg` — the failure neither masks an
exception of the wrapped function nor prevents its return value from reaching
the caller. -/
theorem c5_isolation {α β : Type} (sys : SysEnv) (st : NotifyState)
    (f : α → Except ErrorInfo β) (arg : α) (t1 t2 : Nat)
    (deliver : SlackMessage → DeliveryOutcome) (e : SlackApiError)
    (h : deliver (createMessage sys ((wrapper sys st f arg t1 t2 deliver).st)) =
      DeliveryOutcome.apiError e) :
    (wrapper sys st f arg t1 t2 deliver).outcome = f arg
    ∧ (wrapper sys st f arg t1 t2 deliver).sent.status = 1
    ∧ LogEvent.error ("Could not send a notification: " ++ e.message) ∈
        (wrapper sys st f arg t1 t2 deliver).sent.logs := by
  cases hfa : f arg <;>
  · simp only [wrapper, hfa] at h ⊢
    simp [notifySend, h]

/-- Witness for C5 at a concrete input: a wrapped function returning `7`, a
client that always fails with `SlackApiError("boom")`. -/
theorem c5_isolation_witness :
    (wrapper sys0 stW (fun _ : Nat => (Except.ok 7 : Except ErrorInfo Nat))
        0 0 1 deliverFail).outcome = Except.ok 7
    ∧ (wrapper sys0 stW (fun _ : Nat => (Except.ok 7 : Except ErrorInfo Nat))
        0 0 1 deliverFail).sent.status = 1
    ∧ LogEvent.error ("Could not send a notification: " ++ "boom") ∈
        (wrapper sys0 stW (fun _ : Nat => (Except.ok 7 : Except ErrorInfo Nat))
          0 0 1 deliverFail).sent.logs :=
  c5_isolation sys0 stW (fun _ : Nat => (Except.ok 7 : Except ErrorInfo Nat))
    0 0 1 deliverFail ⟨"boom"⟩ rfl

/-- C2 counterexample: the claim says any string that merely begins with one
of the accepted forms — such as `channelX` or `U123abc` — fails construction.
In the source, `re.match` is unanchored at the end, so both strings pass
validation and construction succeeds. -/
theorem c2_counterexample :
    _is_valid_mention "channelX" = true
    ∧ _is_valid_mention "U123abc" = true
    ∧ notifyInit "#general" (MentionsArg.str "channelX") (some "tok") none =
        Except.ok ⟨"#general", ["channelX"], "tok", none, none, none, none⟩ := by
  refine ⟨by decide, by decide, rfl⟩

/-- C2 amended: construction succeeds exactly when every normalized mention
starts with `channel`, starts with `here`, or starts with `U` followed by a
character from `[0-9A-Z]` (the unanchored `re.match` test); when some mention
fails that test, construction fails eagerly with an error naming an offending
mention, before any call is wrapped. -/
theorem c2_amended (ch : String) (marg : MentionsArg) (tok : String) :
    ((∀ m ∈ normalizeMentions marg, _is_valid_mention m = true) →
      notifyInit ch marg (some tok) none =
        Except.ok ⟨ch, normalizeMentions marg, tok, none, none, none, none⟩)
    ∧ (∀ bad ∈ normalizeMentions marg, _is_valid_mention bad = false →
        ∃ b, notifyInit ch marg (some tok) none =
            Except.error (InitError.invalidMention b)
          ∧ b ∈ normalizeMentions marg ∧ _is_valid_mention b = false) := by
  constructor
  · intro h
    have hf : (normalizeMentions marg).find? (fun m => !_is_valid_mention m) = none := by
      rw [List.find?_eq_none]
      intro x hx
      simp [h x hx]
    simp [notifyInit, hf]
  · intro bad hmem hinv
    have hs : ((normalizeMentions marg).find? (fun m => !_is_valid_mention m)).isSome := by
      rw [List.find?_isSome]
      exact ⟨bad, hmem, by simp [hinv]⟩
    obtain ⟨b, hb⟩ := Option.isSome_iff_exists.mp hs
    refine ⟨b, ?_, List.mem_of_find?_eq_some hb, ?_⟩
    · simp [notifyInit, hb]
    · have hpb := List.find?_some hb
      simpa using hpb

/-- Witness for C2 at a concrete input: both accepted forms of mention pass
validation and construction succeeds. -/
theorem c2_amended_witness :
    notifyInit "#general" (MentionsArg.list ["here", "U123"]) (some "tok") none =
      Except.ok ⟨"#general", ["here", "U123"], "tok", none, none, none, none⟩ :=
  (c2_amended "#general" (MentionsArg.list ["here", "U123"]) "tok").1 (by decide)

/-- The first call of the C6 scenario: the decorated function raises
`ValueError("bad input")`. -/
def c6FirstCall : WrapperResult Nat :=
  wrapper sys0 ⟨"#general", [], "tok", none, none, none, some "main"⟩
    (fun _ : Nat => (Except.error ⟨"ValueError", "bad input"⟩ : Except ErrorInfo Nat))
    0 0 1 deliverOk

/-- The second call of the C6 scenario, through the same instance: the
decorated function now returns `7` normally. -/
def c6SecondCall : WrapperResult Nat :=
  wrapper sys0 c6FirstCall.st
    (fun _ : Nat => (Except.ok 7 : Except ErrorInfo Nat)) 0 2 3 deliverOk

/-- C6: the wrapper does not reset the stored error on a normal return.  After
a first call that raised, a second call that returns `7` normally still leaves
`error = ValueError("bad input")` on the instance, and the message sent for
the successful second call reads "Execution failed!" and carries the
five-block failure layout. -/
theorem c6_stale_error :
    c6SecondCall.outcome = Except.ok 7
    ∧ c6SecondCall.st.error = some ⟨"ValueError", "bad input"⟩
    ∧ c6SecondCall.sent.attempts.map SlackMessage.text =
        [" *Execution failed!* (at function `main`)"]
    ∧ (c6SecondCall.sent.attempts.map fun m =>
        m.attachments.map fun a => a.blocks.length) = [[5]] := by
  refine ⟨rfl, by decide, by decide, by decide⟩

/-- C7: the duration rendering drops whole seconds when the sub-second part
is exactly zero.  A duration of exactly 2 seconds renders as `0:00` (the
`[:-3]` slice removes `:02` because `str(timedelta)` omits the `.ffffff`
suffix), while 1.5 seconds renders as intended. -/
theorem c7_whole_seconds_dropped :
    timedeltaStr 2000000 = "0:00:02"
    ∧ elapsedText ⟨"#general", [], "tok", none, some 0, some 2000000, some "main"⟩ =
        "*Time elapsed*\n0:00"
    ∧ timedeltaStr 1500000 = "0:00:01.500000"
    ∧ elapsedText ⟨"#general", [], "tok", none, some 0, some 1500000, some "main"⟩ =
        "*Time elapsed*\n0:00:01.500" := by
  refine ⟨by decide, by decide, by decide, by decide⟩

/-- A successfully constructed instance with no mentions, used by the C8
counterexample. -/
def stEmptyMentions : NotifyState :=
  ⟨"#general", [], "tok", none, some 0, some 1, some "main"⟩

/-- C8 counterexample: the claim says an empty mention list contributes no
characters to the summary text, including no leading separator space.  With
no mentions the source still renders `f"{prefix} *{msg}* ..."` with an empty
prefix, so the text begins with a space. -/
theorem c8_counterexample :
    (createMessage sys0 stEmptyMentions).text =
      " *Execution succeeded!* (at function `main`)"
    ∧ (createMessage sys0 stEmptyMentions).text ≠
      "*Execution succeeded!* (at function `main`)" := by
  refine ⟨by decide, by decide⟩

/-- C8 amended: the summary text is always the mention prefix (broadcast
rendering for `channel`/`here`, direct rendering otherwise, space-joined,
empty for an empty list), then a single separator space — present even when
the prefix is empty — then the bold status phrase, then the function name in
code style. -/
theorem c8_amended (sys : SysEnv) (st : NotifyState) :
    (createMessage sys st).text =
      mentionText st.mentions ++ " *" ++ statusText st.error ++
        "* (at function `" ++ funcNameText st.func_name ++ "`)"
    ∧ mentionText [] = ""
    ∧ renderMention "channel" = "<!channel>"
    ∧ renderMention "here" = "<!here>"
    ∧ renderMention "U123" = "<@U123>" := by
  refine ⟨?_, by decide, by decide, by decide, by decide⟩
  cases he : st.error <;> simp [createMessage, he]

/-- The instance state after one `notify` object decorates a function named
`f` and then a function named `g` (two `__call__` invocations). -/
def stDecoratedTwice : NotifyState :=
  notifyCall (notifyCall ⟨"#general", [], "tok", none, none, none, none⟩ "f") "g"

/-- C9 counterexample: the claim says the callable produced for `f` keeps
reporting `f`'s name after the same instance decorates `g`.  Decoration
stores the function name on the shared instance, so after decorating `g` the
wrapper produced for `f` reports `g` in its messages. -/
theorem c9_counterexample :
    stDecoratedTwice.func_name = some "g"
    ∧ stDecoratedTwice.func_name ≠ some "f"
    ∧ (wrapper sys0 stDecoratedTwice
        (fun _ : Nat => (Except.ok 1 : Except ErrorInfo Nat))
        0 0 1 deliverOk).sent.attempts.map SlackMessage.text =
        [" *Execution succeeded!* (at function `g`)"] := by
  refine ⟨rfl, by decide, by decide⟩

/-- C9 amended: decorating a second function overwrites the single
`func_name` slot of the shared instance — after decorating `f` then `g` the
stored name is `g`'s — while the call/return behavior of any wrapper invoked
through that state remains transparent. -/
theorem c9_amended {α β : Type} (sys : SysEnv) (st : NotifyState) (nf ng : String)
    (f : α → Except ErrorInfo β) (arg : α) (t1 t2 : Nat)
    (deliver : SlackMessage → DeliveryOutcome) :
    (notifyCall (notifyCall st nf) ng).func_name = some ng
    ∧ (wrapper sys (notifyCall (notifyCall st nf) ng) f arg t1 t2 deliver).outcome =
        f arg := by
  refine ⟨rfl, ?_⟩
  unfold wrapper
  cases f arg <;> rfl

/-- C10 counterexample: the claim says construction with an empty channel
string is not accepted.  `notify.__init__` stores the channel without any
check, so construction with an empty channel succeeds. -/
theorem c10_counterexample :
    notifyInit "" MentionsArg.omitted (some "tok") none =
      Except.ok ⟨"", [], "tok", none, none, none, none⟩ := rfl

/-- C10 amended: construction performs no validation on the channel; every
string, the empty string included, is accepted and stored unchanged as the
destination. -/
theorem c10_amended (ch : String) (tok : String) :
    notifyInit ch MentionsArg.omitted (some tok) none =
      Except.ok ⟨ch, [], tok, none, none, none, none⟩ := rfl
